import Mathlib

/-!
Verification of the `ct_classifier` training loop (`train.py`, `util.py`)
against its natural-language specification.  The Python source is embedded
shallowly: pure computations become Lean functions over `ℚ`/`ℕ`, the
mutable process state becomes explicit state passing, and fallible code
returns `Except`.
-/

namespace CT

/-- Configuration mapping, as loaded from the YAML file
(`main`, train.py:312).  Required keys plus the optional `seed` and
`use_amp` keys. -/
structure Config where
  batch_size : ℕ
  num_workers : ℕ
  learning_rate : ℚ
  weight_decay : ℚ
  num_classes : ℕ
  num_epochs : ℕ
  device : String
  seed : Option ℕ
  use_amp : Bool
  deriving Repr, DecidableEq

/-! ### Checkpoint store: find-latest (train.py:50-76) -/

/-- Embedding of the resume scan in `load_model_optim_scaler`
(train.py:60-74): `model_states = glob.glob('model_states/*.pt')`;
if at least one state is found, `start_epoch = max(model_epochs)`,
otherwise `start_epoch = 0`.  The argument is the list of persisted
checkpoint epoch numbers, in the (arbitrary) order the glob returns them. -/
def load_start_epoch (model_states : List ℕ) : ℕ :=
  match model_states with
  | [] => 0
  | m :: ms => ms.foldl Nat.max m

/-! ### Epoch orchestrator main loop (train.py:329-347) -/

/-- One observable action of the orchestrator's main loop. -/
inductive Event where
  | trainEpoch (e : ℕ)
  | valEpoch (e : ℕ)
  | saveCkpt (e : ℕ)
  deriving Repr, DecidableEq

/-- Embedding of `main`'s epoch loop (train.py:333-347):
`while current_epoch < numEpochs: current_epoch += 1;
train(...); validate(...); save_model(cfg, current_epoch, ...)`.
Returns the trace of epoch-level actions performed. -/
def mainLoop (numEpochs current_epoch : ℕ) : List Event :=
  if current_epoch < numEpochs then
    .trainEpoch (current_epoch + 1) :: .valEpoch (current_epoch + 1) ::
      .saveCkpt (current_epoch + 1) :: mainLoop numEpochs (current_epoch + 1)
  else []
termination_by numEpochs - current_epoch

/-- Number of epoch iterations the loop performs. -/
def mainLoopIterations (numEpochs current_epoch : ℕ) : ℕ :=
  (mainLoop numEpochs current_epoch).length / 3

/-! ### Seeding utility (util.py:13-25) -/

/-- The process-global state mutated by `init_seed`: the three RNG seeds
and the two cuDNN backend flags. -/
structure ProcState where
  pyRandomSeed : Option ℕ
  torchSeed : Option ℕ
  torchCudaSeed : Option ℕ
  cudnnBenchmark : Bool
  cudnnDeterministic : Bool
  deriving Repr, DecidableEq

/-- Embedding of `init_seed` (util.py:13-25): if `seed is not None`,
execute `random.seed(seed)`, `torch.manual_seed(seed)`,
`torch.cuda.manual_seed(seed)`, `cudnn.benchmark = True`,
`cudnn.deterministic = True`; otherwise do nothing. -/
def init_seed (seed : Option ℕ) (s : ProcState) : ProcState :=
  match seed with
  | none => s
  | some v =>
      { pyRandomSeed := some v
        torchSeed := some v
        torchCudaSeed := some v
        cudnnBenchmark := true
        cudnnDeterministic := true }

/-- The mode the spec asks for: a deterministic backend with the
non-deterministic kernel auto-tuner disabled.  In cuDNN terms the
auto-tuner is the `benchmark` flag, so the spec's words translate to
`deterministic = True` and `benchmark = False`. -/
def specDeterministicNoAutotune (s : ProcState) : Prop :=
  s.cudnnDeterministic = true ∧ s.cudnnBenchmark = false

instance (s : ProcState) : Decidable (specDeterministicNoAutotune s) := by
  unfold specDeterministicNoAutotune; infer_instance

/-! ### Numeric values, gradient scaler, SGD step -/

/-- A floating-point value as seen by the scaler's finiteness check: either
a finite value (modelled exactly as a rational) or a non-finite one
(`inf`/`nan`), which reduced-precision arithmetic can produce. -/
inductive FVal where
  | fin (v : ℚ)
  | nonfinite
  deriving Repr, DecidableEq

/-- Whether a value is non-finite (`inf` or `nan`). -/
def FVal.isNonfinite : FVal → Bool
  | .fin _ => false
  | .nonfinite => true

/-- One SGD parameter update, as `setup_optimizer` configures it
(train.py:100-108): plain SGD with learning rate `lr` and L2 weight decay
`wd`, no momentum.  Per parameter `p` with gradient `g` the effective
gradient is `g + wd * p` and the update is `p - lr * (g + wd * p)`;
non-finite inputs poison the result. -/
def sgdStep (lr wd : ℚ) (params grads : List FVal) : List FVal :=
  List.zipWith
    (fun p g =>
      match p, g with
      | .fin pv, .fin gv => .fin (pv - lr * (gv + wd * pv))
      | _, _ => .nonfinite)
    params grads

/-- Modelled from the spec: `torch.cuda.amp.GradScaler` (train.py:58) is an
external collaborator whose internals are not part of this repository.  Its
state (§3 of the spec: "a single multiplicative scale factor ... adjusted
each step based on whether the step produced invalid (infinite/NaN)
gradients") is a scale factor, a growth tracker, an enabled flag, and the
per-step found-non-finite flag communicated from `step` to `update`. -/
structure GradScaler where
  enabled : Bool
  scale : ℚ
  growthTracker : ℕ
  foundInf : Bool
  deriving Repr, DecidableEq

/-- Modelled from the spec: `scaler.step(optimizer)` (train.py:170 and its
comment at train.py:167-169, spec §4.4 step 4): unscale the gradients; if
any gradient is non-finite, skip `optimizer.step()` entirely (parameters
unchanged), otherwise apply the SGD step.  When the scaler is disabled it
invokes the optimizer step unconditionally.  `grads` are the gradients
after unscaling. -/
def GradScaler.step (sc : GradScaler) (lr wd : ℚ) (params grads : List FVal) :
    GradScaler × List FVal :=
  if sc.enabled then
    if grads.any FVal.isNonfinite then
      ({ sc with foundInf := true }, params)
    else
      ({ sc with foundInf := false }, sgdStep lr wd params grads)
  else
    ({ sc with foundInf := false }, sgdStep lr wd params grads)

/-- Modelled from the spec: `scaler.update()` (train.py:173, spec §4.4
step 5: "shrink on overflow, grow otherwise on a fixed cadence") with
torch's default backoff factor `1/2`, growth factor `2` and growth
interval `2000`.  A no-op when the scaler is disabled. -/
def GradScaler.update (sc : GradScaler) : GradScaler :=
  if sc.enabled then
    if sc.foundInf then
      { sc with scale := sc.scale * (1 / 2), growthTracker := 0, foundInf := false }
    else if sc.growthTracker + 1 = 2000 then
      { sc with scale := sc.scale * 2, growthTracker := 0, foundInf := false }
    else
      { sc with growthTracker := sc.growthTracker + 1, foundInf := false }
  else sc

/-- The parameter/scaler part of one training batch (train.py:162-176):
`scaler.step(optimizer)` followed by `scaler.update()`
(`optimizer.zero_grad()` then clears the per-batch gradient slots, which
here are the per-batch `grads` input).  Returns the scaler and parameters
after the batch. -/
def trainBatchUpdate (lr wd : ℚ) (scaler : GradScaler) (params grads : List FVal) :
    GradScaler × List FVal :=
  let s := scaler.step lr wd params grads
  (s.1.update, s.2)

/-! ### Model object and the two epoch runners (train.py:112-212, 216-298) -/

/-- `model.train()` / `model.eval()` mode (train.py:125, train.py:227). -/
inductive Mode where
  | train
  | eval
  deriving Repr, DecidableEq

/-- The model as the core sees it: a mutable parameter snapshot, a
train/eval mode flag, and the device it resides on (`model.to(device)`). -/
structure Model where
  params : List FVal
  mode : Mode
  device : String
  deriving Repr, DecidableEq

/-- Python exceptions the epoch runners can raise. -/
inductive PyError where
  | zeroDivisionError
  deriving Repr, DecidableEq

/-- One iteration of `train`'s batch loop (train.py:145-201) as a state
transformer on `(params, scaler, loss_total, oa_total)`.  `bE` stands for
the external forward pass plus metric computation: given the current
parameters, the model mode and the batch, it yields the batch's
`(loss.item(), oa.item())` pair (train.py:157-160, 184-188).  `gradsOf`
stands for the external autograd: the per-parameter gradients produced by
`scaler.scale(loss).backward()` as seen after unscaling (train.py:164). -/
def trainStep {α : Type} (bE : List FVal → Mode → α → ℚ × ℚ)
    (gradsOf : List FVal → Mode → α → List FVal) (lr wd : ℚ)
    (st : List FVal × GradScaler × ℚ × ℚ) (b : α) :
    List FVal × GradScaler × ℚ × ℚ :=
  let r := bE st.1 Mode.train b
  let u := trainBatchUpdate lr wd st.2.1 st.1 (gradsOf st.1 Mode.train b)
  (u.2, u.1, st.2.2.1 + r.1, st.2.2.2 + r.2)

/-- Embedding of `train` (train.py:112-212): move the model to the device,
put it in training mode, fold the batch loop over the data loader, then
finalize the running totals with `loss_total /= len(dataLoader)` and
`oa_total /= len(dataLoader)` — a Python `ZeroDivisionError` when the
loader is empty.  Returns the (model, scaler) after the epoch and the
`(mean loss, mean OA)` result. -/
def train {α : Type} (bE : List FVal → Mode → α → ℚ × ℚ)
    (gradsOf : List FVal → Mode → α → List FVal)
    (cfg : Config) (dataLoader : List α) (model : Model) (lr wd : ℚ)
    (scaler : GradScaler) : (Model × GradScaler) × Except PyError (ℚ × ℚ) :=
  let m0 : Model := { model with device := cfg.device, mode := Mode.train }
  let fin := dataLoader.foldl (trainStep bE gradsOf lr wd) (m0.params, scaler, 0, 0)
  (({ m0 with params := fin.1 }, fin.2.1),
    if dataLoader.length = 0 then Except.error PyError.zeroDivisionError
    else Except.ok (fin.2.2.1 / dataLoader.length, fin.2.2.2 / dataLoader.length))

/-- The sequence of per-batch `(loss, oa)` pairs a training epoch produces,
batch by batch, as the parameters and scaler evolve. -/
def trainBatchResults {α : Type} (bE : List FVal → Mode → α → ℚ × ℚ)
    (gradsOf : List FVal → Mode → α → List FVal) (lr wd : ℚ) :
    List FVal → GradScaler → List α → List (ℚ × ℚ)
  | _, _, [] => []
  | ps, sc, b :: bs =>
      bE ps Mode.train b ::
        trainBatchResults bE gradsOf lr wd
          (trainBatchUpdate lr wd sc ps (gradsOf ps Mode.train b)).2
          (trainBatchUpdate lr wd sc ps (gradsOf ps Mode.train b)).1 bs

/-- One iteration of `validate`'s running-total accumulation
(train.py:270-274): add the batch's `(loss.item(), oa.item())` pair,
obtained from `g`, to the `(loss_total, oa_total)` accumulator. -/
def valStep {α : Type} (g : α → ℚ × ℚ) (a : ℚ × ℚ) (b : α) : ℚ × ℚ :=
  (a.1 + (g b).1, a.2 + (g b).2)

/-- Embedding of `validate` (train.py:216-298): move the model to the
device, put it in eval mode, run the batch loop under `torch.no_grad()`
(no parameter or scaler updates at all), accumulate `loss_total` and
`oa_total`, then finalize by dividing by `len(dataLoader)` — a Python
`ZeroDivisionError` when the loader is empty. -/
def validate {α : Type} (bE : List FVal → Mode → α → ℚ × ℚ)
    (cfg : Config) (dataLoader : List α) (model : Model) :
    Model × Except PyError (ℚ × ℚ) :=
  let m0 : Model := { model with device := cfg.device, mode := Mode.eval }
  let fin := dataLoader.foldl (valStep (fun b => bE m0.params m0.mode b)) (0, 0)
  (m0,
    if dataLoader.length = 0 then Except.error PyError.zeroDivisionError
    else Except.ok (fin.1 / dataLoader.length, fin.2 / dataLoader.length))

/-! ### Device fallback in `main` (train.py:319-322) -/

/-- Embedding of the CUDA-availability check in `main` (train.py:319-322):
`if device != 'cpu' and not torch.cuda.is_available(): cfg['device'] = 'cpu'`.
`cudaAvailable` stands for `torch.cuda.is_available()`. -/
def deviceFallback (cudaAvailable : Bool) (cfg : Config) : Config :=
  if cfg.device ≠ "cpu" ∧ cudaAvailable = false then
    { cfg with device := "cpu" }
  else cfg

/-! ### Per-batch pipeline descriptors (train.py:145-196 vs 247-282) -/

/-- Structural description of one epoch runner's per-batch pipeline: which
device the batch is moved to, how the autocast context is set up and what
it covers, which loss/accuracy rules are used, and which gradient-related
actions are performed. -/
structure BatchPipeline where
  toDevice : String
  autocastDevice : String
  autocastDtype : String
  autocastEnabled : Bool
  lossInAutocast : Bool
  criterion : String
  accuracyRule : String
  computesGradients : Bool
  optimizerStep : Bool
  scalerUpdate : Bool
  zeroGrad : Bool
  gradTrackingEnabled : Bool
  deriving Repr, DecidableEq

/-- The training runner's per-batch pipeline (train.py:145-196):
`data.to(device)`, `torch.autocast(device_type=device, dtype=torch.float16,
enabled=cfg.get('use_amp', False))` wrapping both the forward pass and the
loss, `scaler.scale(loss).backward()`, `scaler.step(optimizer)`,
`scaler.update()`, `optimizer.zero_grad()`, then argmax/mean accuracy. -/
def trainPipeline (cfg : Config) : BatchPipeline :=
  { toDevice := cfg.device
    autocastDevice := cfg.device
    autocastDtype := "float16"
    autocastEnabled := cfg.use_amp
    lossInAutocast := true
    criterion := "CrossEntropyLoss"
    accuracyRule := "mean(argmax(prediction, dim=1) == labels)"
    computesGradients := true
    optimizerStep := true
    scalerUpdate := true
    zeroGrad := true
    gradTrackingEnabled := true }

/-- The validation runner's per-batch pipeline (train.py:247-282):
`data.to(device)`, `torch.autocast(device_type='cuda',
dtype=torch.float16, enabled=cfg.get('use_amp', False))` wrapping only the
forward pass — the loss is computed outside the autocast block
(train.py:262) — under `torch.no_grad()`, with no backward pass, optimizer
step, scaler update or gradient zeroing, then argmax/mean accuracy. -/
def valPipeline (cfg : Config) : BatchPipeline :=
  { toDevice := cfg.device
    autocastDevice := "cuda"
    autocastDtype := "float16"
    autocastEnabled := cfg.use_amp
    lossInAutocast := false
    criterion := "CrossEntropyLoss"
    accuracyRule := "mean(argmax(prediction, dim=1) == labels)"
    computesGradients := false
    optimizerStep := false
    scalerUpdate := false
    zeroGrad := false
    gradTrackingEnabled := false }

/-! ### Checkpoint bundle and `save_model` (train.py:80-96) -/

/-- A value stored under a key of a checkpoint bundle: one of the four
scalar statistics, or a serialized model / optimizer / scaler state. -/
inductive CkptValue where
  | scalar (q : ℚ)
  | modelSD (params : List FVal)
  | optimSD (lr : ℚ) (weight_decay : ℚ)
  | scalerSD (s : GradScaler)
  deriving Repr, DecidableEq

/-- Python dictionary assignment `d[k] = v`: update the binding in place
if the key is present, otherwise append a new binding. -/
def dictSet {κ V : Type} [DecidableEq κ]
    (d : List (κ × V)) (k : κ) (v : V) : List (κ × V) :=
  if d.any (fun p => p.1 = k) then
    d.map (fun p => if p.1 = k then (k, v) else p)
  else d ++ [(k, v)]

/-- Python dictionary lookup `d[k]`, as an `Option`. -/
def dictGet {κ V : Type} [DecidableEq κ]
    (d : List (κ × V)) (k : κ) : Option V :=
  (d.find? (fun p => p.1 = k)).map (fun p => p.2)

/-- The `model_states` directory: one persisted bundle per epoch number,
plus the optional shared `config.yaml` snapshot. -/
structure Store where
  files : List (ℕ × List (String × CkptValue))
  configYaml : Option Config
  deriving Repr, DecidableEq

/-- Embedding of `save_model` (train.py:80-96): add the serialized model,
optimizer and scaler states to the caller's `stats` dictionary under the
keys `'model'`, `'optim'` and `'scaler'`, persist the resulting bundle as
`model_states/{epoch}.pt`, and write `model_states/config.yaml` if it is
not already present.  Returns the mutated `stats` dictionary together with
the new store contents. -/
def save_model (cfg : Config) (epoch : ℕ) (modelParams : List FVal)
    (lr wd : ℚ) (scaler : GradScaler)
    (stats : List (String × CkptValue)) (store : Store) :
    List (String × CkptValue) × Store :=
  let stats1 := dictSet stats "model" (CkptValue.modelSD modelParams)
  let stats2 := dictSet stats1 "optim" (CkptValue.optimSD lr wd)
  let stats3 := dictSet stats2 "scaler" (CkptValue.scalerSD scaler)
  let store1 : Store := { store with files := dictSet store.files epoch stats3 }
  let store2 : Store :=
    match store1.configYaml with
    | none => { store1 with configYaml := some cfg }
    | some _ => store1
  (stats3, store2)

/-- The stats dictionary `main` builds before saving (train.py:341-346):
exactly the four scalar statistics of the epoch. -/
def mainStats (loss_train loss_val oa_train oa_val : ℚ) :
    List (String × CkptValue) :=
  [("loss_train", CkptValue.scalar loss_train),
   ("loss_val", CkptValue.scalar loss_val),
   ("oa_train", CkptValue.scalar oa_train),
   ("oa_val", CkptValue.scalar oa_val)]

/-! ## Theorems -/

/-- The main loop unfolds to the trace of epochs `s+1 .. num`. -/
theorem mainLoop_eq_flatMap (num s : ℕ) :
    mainLoop num s =
      (List.range' (s + 1) (num - s)).flatMap
        (fun e => [Event.trainEpoch e, Event.valEpoch e, Event.saveCkpt e]) := by
  have key : ∀ n s, num - s = n →
      mainLoop num s =
        (List.range' (s + 1) n).flatMap
          (fun e => [Event.trainEpoch e, Event.valEpoch e, Event.saveCkpt e]) := by
    intro n
    induction n with
    | zero =>
        intro s h
        have hlt : ¬ s < num := by omega
        rw [mainLoop]
        simp [hlt]
    | succ k ih =>
        intro s h
        have hlt : s < num := by omega
        have h2 : num - (s + 1) = k := by omega
        rw [mainLoop]
        rw [List.range'_succ]
        simp only [hlt, if_true, List.flatMap_cons, ih (s + 1) h2]
        rfl
  exact key (num - s) s rfl

/-- Each element of the trace's flat map contributes three events. -/
theorem flatMap_three_length (l : List ℕ) :
    (l.flatMap (fun e => [Event.trainEpoch e, Event.valEpoch e, Event.saveCkpt e])).length
      = 3 * l.length := by
  induction l with
  | nil => rfl
  | cons x xs ih => simp [List.flatMap_cons, ih]; omega

/-- C1: the orchestrator's main loop (train.py:333-347), started at epoch
`s` (0 on a fresh start, or the resumed latest checkpoint number), repeats
while `current_epoch < num_epochs`; each iteration increments
`current_epoch`, runs one training epoch, then one validation epoch, then
saves a checkpoint numbered `current_epoch`.  The trace is exactly
(train e, validate e, save e) for e = s+1 .. num_epochs, so the loop
performs exactly `num_epochs - s` iterations (0 when `s ≥ num_epochs`,
i.e. `max (0, num_epochs - s)` over the integers), and when `s ≥
num_epochs` it performs no epoch at all and exits. -/
theorem c1_main_loop :
    (∀ num s : ℕ, mainLoop num s =
      (List.range' (s + 1) (num - s)).flatMap
        (fun e => [Event.trainEpoch e, Event.valEpoch e, Event.saveCkpt e])) ∧
    (∀ num s : ℕ, mainLoopIterations num s = num - s) ∧
    (∀ num s : ℕ, (mainLoopIterations num s : ℤ) = max 0 ((num : ℤ) - (s : ℤ))) ∧
    (∀ num k : ℕ, mainLoop num (num + k) = []) := by
  refine ⟨mainLoop_eq_flatMap, ?_, ?_, ?_⟩
  · intro num s
    unfold mainLoopIterations
    rw [mainLoop_eq_flatMap, flatMap_three_length, List.length_range']
    omega
  · intro num s
    unfold mainLoopIterations
    rw [mainLoop_eq_flatMap, flatMap_three_length, List.length_range']
    omega
  · intro num k
    rw [mainLoop]
    have : ¬ num + k < num := by omega
    simp [this]

/-- The fold computing Python's `max` over a list is an upper bound of its
starting value. -/
theorem le_foldl_max (l : List ℕ) (a : ℕ) : a ≤ l.foldl Nat.max a := by
  induction l generalizing a with
  | nil => exact le_refl a
  | cons x xs ih => exact le_trans (Nat.le_max_left a x) (ih (Nat.max a x))

/-- The fold computing Python's `max` returns its start or a list member. -/
theorem foldl_max_start_or_mem (l : List ℕ) (a : ℕ) :
    l.foldl Nat.max a = a ∨ l.foldl Nat.max a ∈ l := by
  induction l generalizing a with
  | nil => exact Or.inl rfl
  | cons x xs ih =>
      rcases ih (Nat.max a x) with h | h
      · have hm : Nat.max a x = a ∨ Nat.max a x = x := by
          rcases Nat.le_total a x with hle | hle
          · exact Or.inr (Nat.max_eq_right hle)
          · exact Or.inl (Nat.max_eq_left hle)
        rcases hm with hm | hm
        · exact Or.inl (by rw [List.foldl_cons, h, hm])
        · exact Or.inr (by rw [List.foldl_cons, h, hm]; exact List.mem_cons_self x xs)
      · exact Or.inr (List.mem_cons_of_mem x h)

/-- The fold computing Python's `max` bounds every list member. -/
theorem mem_le_foldl_max (l : List ℕ) (a : ℕ) :
    ∀ x ∈ l, x ≤ l.foldl Nat.max a := by
  induction l generalizing a with
  | nil => intro x hx; cases hx
  | cons y ys ih =>
      intro x hx
      rcases List.mem_cons.mp hx with rfl | hx
      · exact le_trans (Nat.le_max_right a x) (le_foldl_max ys (Nat.max a x))
      · exact ih (Nat.max a y) x hx

/-- C2: the resume scan of `load_model_optim_scaler` (train.py:60-74)
returns the maximum persisted checkpoint number — a member of the store
that bounds every identifier, with no contiguity assumption — or starts at
epoch 0 when the store is empty; over a store holding checkpoints 3, 7, 5
it returns 7. -/
theorem c2_find_latest :
    (∀ l : List ℕ, l ≠ [] →
      load_start_epoch l ∈ l ∧ ∀ x ∈ l, x ≤ load_start_epoch l) ∧
    load_start_epoch [] = 0 ∧
    load_start_epoch [3, 7, 5] = 7 := by
  refine ⟨?_, rfl, by decide⟩
  intro l hl
  match l with
  | [] => exact absurd rfl hl
  | m :: ms =>
      constructor
      · rcases foldl_max_start_or_mem ms m with h | h
        · rw [load_start_epoch, h]; exact List.mem_cons_self m ms
        · rw [load_start_epoch]; exact List.mem_cons_of_mem m h
      · intro x hx
        rcases List.mem_cons.mp hx with rfl | hx
        · rw [load_start_epoch]; exact le_foldl_max ms x
        · rw [load_start_epoch]; exact mem_le_foldl_max ms m x hx

/-- Witness for C2 at the store {3, 7, 5}. -/
theorem c2_find_latest_witness :
    load_start_epoch [3, 7, 5] ∈ [3, 7, 5] ∧
      ∀ x ∈ [3, 7, 5], x ≤ load_start_epoch [3, 7, 5] :=
  c2_find_latest.1 [3, 7, 5] (by decide)

/-- Counterexample for C5: seeding with 42 from a fresh process state
leaves the backend outside the mode the claim describes — `init_seed` sets
`cudnn.benchmark = True` (util.py:24), which enables the non-deterministic
kernel auto-tuner instead of disabling it. -/
theorem c5_counterexample :
    ¬ specDeterministicNoAutotune
        (init_seed (some 42)
          { pyRandomSeed := none, torchSeed := none, torchCudaSeed := none,
            cudnnBenchmark := false, cudnnDeterministic := false }) := by
  decide

/-- C5 (amended): when a seed is present, `init_seed` (util.py:13-25)
seeds the host RNG and both torch RNGs (host and accelerator) with it and
sets `cudnn.deterministic = True`, but it also sets
`cudnn.benchmark = True`, enabling — not disabling — kernel auto-tuning;
when the seed is absent the call is a no-op and no process state is
mutated. -/
theorem c5_seed_behavior :
    (∀ (v : ℕ) (s : ProcState),
        init_seed (some v) s =
          { pyRandomSeed := some v, torchSeed := some v, torchCudaSeed := some v,
            cudnnBenchmark := true, cudnnDeterministic := true }) ∧
    (∀ s : ProcState, init_seed none s = s) :=
  ⟨fun _ _ => rfl, fun _ => rfl⟩

/-- A concrete configuration requesting a CUDA device. -/
def cfgCuda : Config :=
  { batch_size := 1, num_workers := 0, learning_rate := 1, weight_decay := 0,
    num_classes := 2, num_epochs := 5, device := "cuda", seed := none,
    use_amp := false }

/-- Counterexample for C6: with CUDA unavailable and a non-CPU device
configured, `main`'s availability check (train.py:319-322) writes
`cfg['device'] = 'cpu'`, so the configuration is not read-only after
loading. -/
theorem c6_counterexample : deviceFallback false cfgCuda ≠ cfgCuda := by
  decide

/-- C6 (amended): after loading, the only write to the configuration is
`main`'s device-availability check, which may overwrite the `device` key
with `'cpu'` (exactly when the configured device is not `'cpu'` and CUDA
is unavailable) once, before any data loader, model or epoch runner is
created; every other key is preserved by that check, and no other
component writes to the configuration. -/
theorem c6_config_writes (b : Bool) (cfg : Config) :
    (deviceFallback b cfg).batch_size = cfg.batch_size ∧
    (deviceFallback b cfg).num_workers = cfg.num_workers ∧
    (deviceFallback b cfg).learning_rate = cfg.learning_rate ∧
    (deviceFallback b cfg).weight_decay = cfg.weight_decay ∧
    (deviceFallback b cfg).num_classes = cfg.num_classes ∧
    (deviceFallback b cfg).num_epochs = cfg.num_epochs ∧
    (deviceFallback b cfg).seed = cfg.seed ∧
    (deviceFallback b cfg).use_amp = cfg.use_amp ∧
    ((deviceFallback b cfg).device = cfg.device ∨
      ((deviceFallback b cfg).device = "cpu" ∧ cfg.device ≠ "cpu" ∧ b = false)) := by
  unfold deviceFallback
  by_cases h : cfg.device ≠ "cpu" ∧ b = false
  · rw [if_pos h]
    exact ⟨rfl, rfl, rfl, rfl, rfl, rfl, rfl, rfl, Or.inr ⟨rfl, h.1, h.2⟩⟩
  · rw [if_neg h]
    exact ⟨rfl, rfl, rfl, rfl, rfl, rfl, rfl, rfl, Or.inl rfl⟩

/-- A concrete configuration running on the CPU with mixed precision on. -/
def cfgCpu : Config :=
  { batch_size := 1, num_workers := 0, learning_rate := 1, weight_decay := 0,
    num_classes := 2, num_epochs := 5, device := "cpu", seed := none,
    use_amp := true }

/-- Counterexample for C7: with the device configured as `"cpu"`, the
validation runner's autocast context is built for device type `'cuda'`
(hardcoded at train.py:258) while the training runner's follows the
configured device (train.py:155), and the validation loss is computed
outside the autocast region (train.py:262) while the training loss is
computed inside it (train.py:160) — so the two per-batch pipelines are not
identical up to gradient handling. -/
theorem c7_counterexample :
    (valPipeline cfgCpu).autocastDevice ≠ (trainPipeline cfgCpu).autocastDevice ∧
    (valPipeline cfgCpu).lossInAutocast ≠ (trainPipeline cfgCpu).lossInAutocast := by
  decide

/-- C7 (amended): for every configuration, the validation per-batch
pipeline matches the training one in device placement, autocast dtype and
enablement flag, loss criterion and arg-max accuracy rule, and omits
gradient computation, optimizer step, scaler update and gradient zeroing;
but its autocast context is hardcoded to device type `'cuda'` (the
training one follows the configured device) and its loss is computed
outside the autocast region (the training one computes it inside). -/
theorem c7_pipeline_comparison (cfg : Config) :
    (valPipeline cfg).toDevice = (trainPipeline cfg).toDevice ∧
    (valPipeline cfg).autocastDtype = (trainPipeline cfg).autocastDtype ∧
    (valPipeline cfg).autocastEnabled = (trainPipeline cfg).autocastEnabled ∧
    (valPipeline cfg).criterion = (trainPipeline cfg).criterion ∧
    (valPipeline cfg).accuracyRule = (trainPipeline cfg).accuracyRule ∧
    (trainPipeline cfg).autocastDevice = cfg.device ∧
    (valPipeline cfg).autocastDevice = "cuda" ∧
    (trainPipeline cfg).lossInAutocast = true ∧
    (valPipeline cfg).lossInAutocast = false ∧
    (trainPipeline cfg).computesGradients = true ∧
    (valPipeline cfg).computesGradients = false ∧
    (trainPipeline cfg).optimizerStep = true ∧
    (valPipeline cfg).optimizerStep = false ∧
    (trainPipeline cfg).scalerUpdate = true ∧
    (valPipeline cfg).scalerUpdate = false ∧
    (trainPipeline cfg).zeroGrad = true ∧
    (valPipeline cfg).zeroGrad = false ∧
    (trainPipeline cfg).gradTrackingEnabled = true ∧
    (valPipeline cfg).gradTrackingEnabled = false :=
  ⟨rfl, rfl, rfl, rfl, rfl, rfl, rfl, rfl, rfl, rfl, rfl, rfl, rfl, rfl, rfl,
   rfl, rfl, rfl, rfl⟩

/-- C3: for an enabled scaler with a positive scale factor, one per-batch
parameter/scaler update (`scaler.step(optimizer)` then `scaler.update()`,
train.py:162-176): if any gradient is non-finite the optimizer step is
skipped entirely — the parameters after the batch equal the parameters
before it — and the scale factor strictly decreases; if all gradients are
finite the SGD optimizer step is applied. -/
theorem c3_scaler_skip (lr wd : ℚ) (sc : GradScaler) (ps gs : List FVal)
    (hen : sc.enabled = true) (hpos : 0 < sc.scale) :
    (gs.any FVal.isNonfinite = true →
      (trainBatchUpdate lr wd sc ps gs).2 = ps ∧
      (trainBatchUpdate lr wd sc ps gs).1.scale < sc.scale) ∧
    (gs.any FVal.isNonfinite = false →
      (trainBatchUpdate lr wd sc ps gs).2 = sgdStep lr wd ps gs) := by
  constructor
  · intro hinf
    have h1 : trainBatchUpdate lr wd sc ps gs
        = (GradScaler.update { sc with foundInf := true }, ps) := by
      unfold trainBatchUpdate GradScaler.step
      rw [hen]
      simp [hinf]
    have h2 : GradScaler.update { sc with foundInf := true }
        = (⟨sc.enabled, sc.scale * (1 / 2), 0, false⟩ : GradScaler) := by
      unfold GradScaler.update
      simp [hen]
    rw [h1, h2]
    refine ⟨rfl, ?_⟩
    show sc.scale * (1 / 2) < sc.scale
    linarith
  · intro hfin
    have h1 : trainBatchUpdate lr wd sc ps gs
        = (GradScaler.update { sc with foundInf := false },
            sgdStep lr wd ps gs) := by
      unfold trainBatchUpdate GradScaler.step
      rw [hen]
      simp [hfin]
    rw [h1]

/-- Witness for C3: a single parameter, a non-finite gradient, a fresh
enabled scaler at torch's default initial scale 65536 — the parameter is
unchanged and the scale drops below 65536. -/
theorem c3_scaler_skip_witness :
    (trainBatchUpdate 1 0
        { enabled := true, scale := 65536, growthTracker := 0, foundInf := false }
        [FVal.fin 1] [FVal.nonfinite]).2 = [FVal.fin 1] ∧
    (trainBatchUpdate 1 0
        { enabled := true, scale := 65536, growthTracker := 0, foundInf := false }
        [FVal.fin 1] [FVal.nonfinite]).1.scale < 65536 :=
  (c3_scaler_skip 1 0
    { enabled := true, scale := 65536, growthTracker := 0, foundInf := false }
    [FVal.fin 1] [FVal.nonfinite] rfl (by norm_num)).1 rfl

/-- C4 (code behavior at the failing input): on an empty batch sequence
both epoch runners reach `loss_total /= len(dataLoader)` with
`len(dataLoader) = 0` (train.py:205-206, train.py:291-292) and fail with
Python's generic `ZeroDivisionError`; no guard reports a distinct
empty-input error. -/
theorem c4_empty_divzero :
    (∀ (bE : List FVal → Mode → ℕ → ℚ × ℚ)
        (gradsOf : List FVal → Mode → ℕ → List FVal)
        (cfg : Config) (m : Model) (lr wd : ℚ) (sc : GradScaler),
        (train bE gradsOf cfg ([] : List ℕ) m lr wd sc).2 =
          Except.error PyError.zeroDivisionError) ∧
    (∀ (bE : List FVal → Mode → ℕ → ℚ × ℚ) (cfg : Config) (m : Model),
        (validate bE cfg ([] : List ℕ) m).2 =
          Except.error PyError.zeroDivisionError) :=
  ⟨fun _ _ _ _ _ _ _ => rfl, fun _ _ _ => rfl⟩

/-- C8: the validation runner (train.py:216-298) never mutates model
parameters — the parameter snapshot after a validation epoch equals the
one before it — and running validation twice in a row on identical data
returns the identical model and identical loss/accuracy both times. -/
theorem c8_validate_no_mutation {α : Type} (bE : List FVal → Mode → α → ℚ × ℚ)
    (cfg : Config) (dl : List α) (m : Model) :
    (validate bE cfg dl m).1.params = m.params ∧
    validate bE cfg dl (validate bE cfg dl m).1 = validate bE cfg dl m :=
  ⟨rfl, rfl⟩

/-- The training fold's running totals are the sums of the per-batch
`(loss, oa)` results. -/
theorem trainFold_totals {α : Type} (bE : List FVal → Mode → α → ℚ × ℚ)
    (gradsOf : List FVal → Mode → α → List FVal) (lr wd : ℚ) :
    ∀ (dl : List α) (ps : List FVal) (sc : GradScaler) (lt ot : ℚ),
      (dl.foldl (trainStep bE gradsOf lr wd) (ps, sc, lt, ot)).2.2.1
          = lt + ((trainBatchResults bE gradsOf lr wd ps sc dl).map Prod.fst).sum ∧
      (dl.foldl (trainStep bE gradsOf lr wd) (ps, sc, lt, ot)).2.2.2
          = ot + ((trainBatchResults bE gradsOf lr wd ps sc dl).map Prod.snd).sum := by
  intro dl
  induction dl with
  | nil =>
      intro ps sc lt ot
      constructor <;> simp [trainBatchResults]
  | cons b bs ih =>
      intro ps sc lt ot
      have h := ih (trainBatchUpdate lr wd sc ps (gradsOf ps Mode.train b)).2
        (trainBatchUpdate lr wd sc ps (gradsOf ps Mode.train b)).1
        (lt + (bE ps Mode.train b).1) (ot + (bE ps Mode.train b).2)
      constructor
      · calc ((b :: bs).foldl (trainStep bE gradsOf lr wd) (ps, sc, lt, ot)).2.2.1
            = (bs.foldl (trainStep bE gradsOf lr wd)
                ((trainBatchUpdate lr wd sc ps (gradsOf ps Mode.train b)).2,
                 (trainBatchUpdate lr wd sc ps (gradsOf ps Mode.train b)).1,
                 lt + (bE ps Mode.train b).1,
                 ot + (bE ps Mode.train b).2)).2.2.1 := rfl
          _ = (lt + (bE ps Mode.train b).1) +
                ((trainBatchResults bE gradsOf lr wd
                    (trainBatchUpdate lr wd sc ps (gradsOf ps Mode.train b)).2
                    (trainBatchUpdate lr wd sc ps (gradsOf ps Mode.train b)).1
                    bs).map Prod.fst).sum := h.1
          _ = lt + ((trainBatchResults bE gradsOf lr wd ps sc (b :: bs)).map
                Prod.fst).sum := by
              rw [trainBatchResults, List.map_cons, List.sum_cons, add_assoc]
      · calc ((b :: bs).foldl (trainStep bE gradsOf lr wd) (ps, sc, lt, ot)).2.2.2
            = (bs.foldl (trainStep bE gradsOf lr wd)
                ((trainBatchUpdate lr wd sc ps (gradsOf ps Mode.train b)).2,
                 (trainBatchUpdate lr wd sc ps (gradsOf ps Mode.train b)).1,
                 lt + (bE ps Mode.train b).1,
                 ot + (bE ps Mode.train b).2)).2.2.2 := rfl
          _ = (ot + (bE ps Mode.train b).2) +
                ((trainBatchResults bE gradsOf lr wd
                    (trainBatchUpdate lr wd sc ps (gradsOf ps Mode.train b)).2
                    (trainBatchUpdate lr wd sc ps (gradsOf ps Mode.train b)).1
                    bs).map Prod.snd).sum := h.2
          _ = ot + ((trainBatchResults bE gradsOf lr wd ps sc (b :: bs)).map
                Prod.snd).sum := by
              rw [trainBatchResults, List.map_cons, List.sum_cons, add_assoc]

/-- The validation fold's running totals are the sums of the per-batch
`(loss, oa)` results. -/
theorem valFold_totals {α : Type} (g : α → ℚ × ℚ) :
    ∀ (dl : List α) (lt ot : ℚ),
      dl.foldl (valStep g) (lt, ot)
        = (lt + (dl.map (fun b => (g b).1)).sum,
           ot + (dl.map (fun b => (g b).2)).sum) := by
  intro dl
  induction dl with
  | nil => intro lt ot; simp
  | cons b bs ih =>
      intro lt ot
      calc (b :: bs).foldl (valStep g) (lt, ot)
          = bs.foldl (valStep g) (lt + (g b).1, ot + (g b).2) := rfl
        _ = (lt + (g b).1 + (bs.map (fun x => (g x).1)).sum,
             ot + (g b).2 + (bs.map (fun x => (g x).2)).sum) := ih _ _
        _ = (lt + ((b :: bs).map (fun x => (g x).1)).sum,
             ot + ((b :: bs).map (fun x => (g x).2)).sum) := by
              rw [List.map_cons, List.sum_cons, List.map_cons, List.sum_cons,
                add_assoc, add_assoc]

/-- C9: for a non-empty batch sequence, each epoch runner returns exactly
the cumulative per-batch loss and accuracy sums divided by the batch count
— the arithmetic mean of the per-batch values it computed (train.py:184-206
for training, train.py:270-292 for validation). -/
theorem c9_epoch_mean {α : Type} (bE : List FVal → Mode → α → ℚ × ℚ)
    (gradsOf : List FVal → Mode → α → List FVal)
    (cfg : Config) (dl : List α) (m : Model) (lr wd : ℚ) (sc : GradScaler)
    (hne : dl ≠ []) :
    (train bE gradsOf cfg dl m lr wd sc).2 =
      Except.ok
        (((trainBatchResults bE gradsOf lr wd m.params sc dl).map Prod.fst).sum
            / dl.length,
         ((trainBatchResults bE gradsOf lr wd m.params sc dl).map Prod.snd).sum
            / dl.length) ∧
    (validate bE cfg dl m).2 =
      Except.ok
        ((dl.map (fun b => (bE m.params Mode.eval b).1)).sum / dl.length,
         (dl.map (fun b => (bE m.params Mode.eval b).2)).sum / dl.length) := by
  have hlen : ¬ dl.length = 0 := fun h => hne (List.length_eq_zero.mp h)
  constructor
  · show (if dl.length = 0 then Except.error PyError.zeroDivisionError
      else Except.ok
        ((dl.foldl (trainStep bE gradsOf lr wd) (m.params, sc, 0, 0)).2.2.1
            / dl.length,
         (dl.foldl (trainStep bE gradsOf lr wd) (m.params, sc, 0, 0)).2.2.2
            / dl.length)) = _
    rw [if_neg hlen, (trainFold_totals bE gradsOf lr wd dl m.params sc 0 0).1,
      (trainFold_totals bE gradsOf lr wd dl m.params sc 0 0).2, zero_add,
      zero_add]
  · show (if dl.length = 0 then Except.error PyError.zeroDivisionError
      else Except.ok
        ((dl.foldl (valStep (fun b => bE m.params Mode.eval b)) (0, 0)).1
            / dl.length,
         (dl.foldl (valStep (fun b => bE m.params Mode.eval b)) (0, 0)).2
            / dl.length)) = _
    rw [if_neg hlen, valFold_totals (fun b => bE m.params Mode.eval b) dl 0 0]
    simp

/-- Witness for C9: four batches with per-batch accuracies
1, 1/2, 1/2, 1 (and constant per-batch loss 2) yield mean accuracy 3/4
(and mean loss 2) from the validation runner. -/
theorem c9_epoch_mean_witness :
    (validate (fun _ _ b => ((2 : ℚ), [(1 : ℚ), 1/2, 1/2, 1].getD b 0))
        cfgCpu [0, 1, 2, 3] { params := [], mode := Mode.train, device := "x" }).2
      = Except.ok (2, 3/4) := by
  rw [(c9_epoch_mean (fun _ _ b => ((2 : ℚ), [(1 : ℚ), 1/2, 1/2, 1].getD b 0))
    (fun _ _ _ => ([] : List FVal)) cfgCpu [0, 1, 2, 3]
    { params := [], mode := Mode.train, device := "x" } 1 0
    { enabled := false, scale := 1, growthTracker := 0, foundInf := false }
    (by decide)).2]
  norm_num

/-- C10: `save_model` (train.py:80-90) mutates the caller's stats
dictionary: after the call it additionally binds `'model'`, `'optim'` and
`'scaler'` to the serialized model, optimizer and scaler states, alongside
the four scalar statistics `main` put there (train.py:341-347). -/
theorem c10_save_model_stats (cfg : Config) (epoch : ℕ) (mp : List FVal)
    (lr wd : ℚ) (sc : GradScaler) (a b c d : ℚ) (store : Store) :
    dictGet (save_model cfg epoch mp lr wd sc (mainStats a b c d) store).1
        "model" = some (CkptValue.modelSD mp) ∧
    dictGet (save_model cfg epoch mp lr wd sc (mainStats a b c d) store).1
        "optim" = some (CkptValue.optimSD lr wd) ∧
    dictGet (save_model cfg epoch mp lr wd sc (mainStats a b c d) store).1
        "scaler" = some (CkptValue.scalerSD sc) ∧
    dictGet (save_model cfg epoch mp lr wd sc (mainStats a b c d) store).1
        "loss_train" = some (CkptValue.scalar a) ∧
    dictGet (save_model cfg epoch mp lr wd sc (mainStats a b c d) store).1
        "loss_val" = some (CkptValue.scalar b) ∧
    dictGet (save_model cfg epoch mp lr wd sc (mainStats a b c d) store).1
        "oa_train" = some (CkptValue.scalar c) ∧
    dictGet (save_model cfg epoch mp lr wd sc (mainStats a b c d) store).1
        "oa_val" = some (CkptValue.scalar d) :=
  ⟨rfl, rfl, rfl, rfl, rfl, rfl, rfl⟩

end CT
